import Mathlib

/-!
Shallow embedding of `src/ddagent.py`: the transaction queue and delivery
engine (`Transaction`), the intake endpoint (`AgentInputHandler`), and the
check-process supervisor (`Application.run_checks`).

Modelling conventions:
* Timestamps are `Nat` microseconds since an arbitrary epoch; `datetime.now()`
  becomes an explicit `now : Nat` argument, and `replace(microsecond=0)`
  becomes truncation to a multiple of `usPerSec`.
* The external collaborator `format_body` is an abstract parameter
  `fb : α → Option β` (`none` models the formatter raising an exception);
  `md5(...).hexdigest()` and `json_decode` are likewise abstract parameters
  of the intake handler (`json_decode` raising is modelled by `none`).
* The payload type `α` and formatted-body type `β` are opaque type
  parameters, since the code treats both as opaque blobs.
* Python object identity of a `Transaction` is modelled by its `_id` field,
  which the code makes unique for the lifetime of the process (a single
  shared counter); `list.remove(self)` removes the first element with the
  same id, and mutation of an aliased object becomes a map over the list
  replacing the element with that id.
* The asynchronous `http.fetch` boundary is made explicit: each queue
  operation returns the state together with a `FlushEffect` describing the
  side effect at the network boundary (`sent` = an HTTP request was issued
  and a callback is pending, `crashed` = an exception escaped before a
  request was issued, `drained` = the cursor was reset, `noop` = nothing).
-/

namespace DDAgent

/-- Microseconds per second; `datetime` values are modelled in microseconds. -/
def usPerSec : Nat := 1000000

/-- `newdate.replace(microsecond=0)`: truncate a timestamp down to a whole
second. -/
def truncSec (t : Nat) : Nat := t / usPerSec * usPerSec

/-- The backoff delay (in whole seconds) computed inside
`Transaction.compute_next_flush` (ddagent.py lines 119-121):
`td = timedelta(seconds=self._error_count * 20); if td > timedelta(seconds=60): td = timedelta(seconds=60)`. -/
def backoffDelay (errorCount : Nat) : Nat :=
  let td := errorCount * 20
  if td > 60 then 60 else td

/-- `Transaction.compute_next_flush` (lines 115-124): the new `_next_flush`
is `datetime.now() + td` with microseconds zeroed. -/
def computeNextFlush (errorCount now : Nat) : Nat :=
  truncSec (now + backoffDelay errorCount * usPerSec)

/-- One queued transaction: `_id`, `_data`, `_error_count`, `_next_flush`
(ddagent.py lines 47-54). -/
structure Transaction (α : Type) where
  id : Nat
  data : α
  errorCount : Nat
  nextFlush : Nat
deriving DecidableEq

/-- The shared mutable state of the `Transaction` class:
`_transactions` (the live collection, appended at the tail),
`_counter` (the global id counter), and
`_trs_to_flush` (the flush cursor: `None` or the working list). -/
structure TrState (α : Type) where
  transactions : List (Transaction α)
  counter : Nat
  trsToFlush : Option (List (Transaction α))
deriving DecidableEq

/-- What happened at the network boundary during one queue operation. -/
inductive FlushEffect (α β : Type) where
  | noop : FlushEffect α β
  | sent : Transaction α → β → FlushEffect α β
  | crashed : Transaction α → FlushEffect α β
  | drained : FlushEffect α β
deriving DecidableEq

/-- The transaction handed to `http.fetch` by this effect, if any
(`crashed` still popped the transaction before the exception). -/
def poppedTr {α β : Type} : FlushEffect α β → Option (Transaction α)
  | FlushEffect.sent tr _ => some tr
  | FlushEffect.crashed tr => some tr
  | _ => none

/-- `Transaction.__init__` (lines 47-59): bump the counter, build the
transaction with `_error_count = 0` and `_next_flush = datetime.now()`,
append it at the end of `_transactions`. -/
def enqueue {α : Type} (s : TrState α) (d : α) (now : Nat) : TrState α :=
  { transactions := s.transactions ++ [⟨s.counter + 1, d, 0, now⟩]
    counter := s.counter + 1
    trsToFlush := s.trsToFlush }

/-- `Transaction.time_to_flush` (lines 105-106): `self._next_flush < now`
(strict comparison in the source). -/
def time_to_flush {α : Type} (tr : Transaction α) (now : Nat) : Bool :=
  tr.nextFlush < now

/-- The selection loop inside `Transaction.flush` (lines 68-73): scan
`_transactions` in list order and keep those for which `time_to_flush(now)`
holds.  (The spec calls this operation `selectDue`.) -/
def selectDue {α : Type} (trs : List (Transaction α)) (now : Nat) :
    List (Transaction α) :=
  trs.filter (fun tr => time_to_flush tr now)

/-- `Transaction.get_data` (lines 108-113): delegate to the external
`format_body`.  NOTE: in the source the `except` block reads
`logger.error(...)` where `logger` is an undefined name, so a formatter
failure makes `get_data` itself raise (`NameError`) instead of returning;
here `get_data` returns `none` exactly when the formatter fails, and the
caller `flush_next` turns that into the `crashed` effect. -/
def get_data {α β : Type} (fb : α → Option β) (tr : Transaction α) :
    Option β :=
  fb tr.data

/-- `Transaction._flush_next` (lines 82-94), acting on the working list
`l = _trs_to_flush`: if `l` is non-empty, `l.pop()` removes the LAST
element, `get_data` is evaluated while building the `HTTPRequest`, and the
request is handed to `http.fetch` (effect `sent`); if `get_data` raises,
the exception escapes after the pop and before any fetch (effect
`crashed`).  If `l` is empty, `_trs_to_flush` is reset to `None` (effect
`drained`).  Returns the new value of `_trs_to_flush` and the effect.
The destination `url` does not affect queue state and is not modelled. -/
def flush_next {α β : Type} (fb : α → Option β) (l : List (Transaction α)) :
    Option (List (Transaction α)) × FlushEffect α β :=
  match l.getLast? with
  | some tr =>
    match get_data fb tr with
    | some b => (some l.dropLast, FlushEffect.sent tr b)
    | none => (some l.dropLast, FlushEffect.crashed tr)
  | none => (none, FlushEffect.drained)

/-- `Transaction.flush` (lines 61-80): if `_trs_to_flush is not None`, log
and return (no-op).  Otherwise select the due transactions; if there are
any, set `_trs_to_flush` to that list and call `_flush_next`. -/
def flush {α β : Type} (fb : α → Option β) (s : TrState α) (now : Nat) :
    TrState α × FlushEffect α β :=
  match s.trsToFlush with
  | some _ => (s, FlushEffect.noop)
  | none =>
    let toFlush := selectDue s.transactions now
    if 0 < toFlush.length then
      let r := flush_next fb toFlush
      ({ s with trsToFlush := r.1 }, r.2)
    else (s, FlushEffect.noop)

/-- `Transaction.error` (lines 126-130): increment `_error_count`, then
`compute_next_flush` reads the already-incremented count. -/
def errorTr {α : Type} (now : Nat) (tr : Transaction α) : Transaction α :=
  { tr with
    errorCount := tr.errorCount + 1
    nextFlush := computeNextFlush (tr.errorCount + 1) now }

/-- Python `list.remove(x)` for the live collection
(`Transaction._transactions.remove(self)`, line 134): remove the first
element with the given id (object identity is modelled by the unique id). -/
def removeFirstId {α : Type} (i : Nat) : List (Transaction α) → List (Transaction α)
  | [] => []
  | t :: ts => if t.id = i then ts else t :: removeFirstId i ts

/-- `Transaction.on_response` (lines 96-103): on a transport error call
`tr.error()` (mutating the aliased object inside `_transactions`),
otherwise call `tr.finish()` (remove it from `_transactions`); then call
`_flush_next` on the current working list.  `now` is the time at which the
callback fires.  In real runs `_trs_to_flush` is non-`None` whenever a
callback is pending (a `None` cursor here would be a `TypeError` in the
source); that branch is modelled as a no-effect fallback. -/
def on_response {α β : Type} (fb : α → Option β) (s : TrState α)
    (tr : Transaction α) (isError : Bool) (now : Nat) :
    TrState α × FlushEffect α β :=
  let trs := if isError then
      s.transactions.map (fun t => if t.id = tr.id then errorTr now t else t)
    else removeFirstId tr.id s.transactions
  match s.trsToFlush with
  | some l =>
    let r := flush_next fb l
    (⟨trs, s.counter, r.1⟩, r.2)
  | none => (⟨trs, s.counter, none⟩, FlushEffect.noop)

/-- HTTP response of the intake handler: implicit 200 on normal return,
or an error status (`tornado.web.HTTPError(500)`, and tornado's default
500 for an exception that escapes the handler). -/
inductive PostResult where
  | ok : PostResult
  | httpError : Nat → PostResult
deriving DecidableEq

/-- `AgentInputHandler.parse_message` (lines 141-149): compare the digest
of the raw message with the supplied hash; on mismatch log and return
`None`; otherwise `json_decode(message)` — which RAISES on a decode
failure (modelled as `Except.error ()`), uncaught in the source.
`digest` abstracts `md5(...).hexdigest()` and `jsonDecode` abstracts
`tornado.escape.json_decode` (`none` = raises). -/
def parse_message {μ α : Type} (digest : μ → String) (jsonDecode : μ → Option α)
    (message : μ) (msgHash : String) : Except Unit (Option α) :=
  if digest message ≠ msgHash then Except.ok none
  else
    match jsonDecode message with
    | some v => Except.ok (some v)
    | none => Except.error ()

/-- `AgentInputHandler.post` (lines 152-164): parse the message; if it
parsed, create a `Transaction` and call `Transaction.flush()` (implicit
200); if `parse_message` returned `None`, raise `HTTPError(500)`; an
exception escaping `parse_message` is answered by tornado with a 500 as
well. -/
def post {μ α β : Type} (digest : μ → String) (jsonDecode : μ → Option α)
    (fb : α → Option β) (s : TrState α) (message : μ) (msgHash : String)
    (now : Nat) : TrState α × PostResult :=
  match parse_message digest jsonDecode message msgHash with
  | Except.ok (some msg) => ((flush fb (enqueue s msg now) now).1, PostResult.ok)
  | Except.ok none => (s, PostResult.httpError 500)
  | Except.error _ => (s, PostResult.httpError 500)

/-- The supervisor state: `Application._check_pid` (sentinel `-1` means no
child tracked). -/
structure AppState where
  checkPid : Int
deriving DecidableEq

/-- Outcome of the `Popen(args)` call in `run_checks`: a started child
with its pid, or an exception. -/
inductive SpawnOutcome where
  | started : Int → SpawnOutcome
  | failed : SpawnOutcome
deriving DecidableEq

/-- `Application.run_checks` (lines 189-212): if `_check_pid > 0` a
previous instance is still tracked — log a warning and return `False`
without touching the handle.  Otherwise `Popen` the child: on success
record its pid and return `True`; on an exception log it and return
`False` (handle untouched). -/
def run_checks (s : AppState) (popen : SpawnOutcome) : Bool × AppState :=
  if s.checkPid > 0 then (false, s)
  else
    match popen with
    | SpawnOutcome.started pid => (true, { s with checkPid := pid })
    | SpawnOutcome.failed => (false, s)

/-! ## Theorems -/

/-- C3: the backoff policy is the pure function
`delay(f) = min(f * 20 seconds, 60 seconds)`; for every non-negative
failure count `f` the computed retry delay equals `min(f*20, 60)` seconds,
and in particular `delay(0) = 0`. -/
theorem C3_backoff_is_capped_linear :
    (∀ f : Nat, backoffDelay f = min (f * 20) 60) ∧ backoffDelay 0 = 0 := by
  constructor
  · intro f
    simp only [backoffDelay]
    split <;> omega
  · rfl

/-- C10: after a failed delivery attempt the recomputed `nextEligibleTime`
is `(now + delay)` truncated to whole seconds (microseconds zeroed): it is
a multiple of a second, at most `now + delay`, and short of it by strictly
less than one second; at `now = 0.5s` with one failure it is strictly
earlier than `now + delay`. -/
theorem C10_next_flush_truncated (ec now : Nat) :
    computeNextFlush ec now % usPerSec = 0
    ∧ computeNextFlush ec now ≤ now + backoffDelay ec * usPerSec
    ∧ now + backoffDelay ec * usPerSec < computeNextFlush ec now + usPerSec
    ∧ computeNextFlush 1 500000 < 500000 + backoffDelay 1 * usPerSec := by
  refine ⟨?_, ?_, ?_, by decide⟩
  · simp only [computeNextFlush, truncSec, usPerSec]
    omega
  · simp only [computeNextFlush, truncSec, usPerSec]
    omega
  · simp only [computeNextFlush, truncSec, usPerSec]
    omega

/-- C4 (counterexample): the claim says `selectDue(now)` returns every live
transaction with `nextEligibleTime <= now`, including equality; the code
compares with strict `<` (`time_to_flush`), so a transaction whose
`nextFlush` equals `now` is not selected. -/
theorem C4_counterexample :
    (⟨1, 0, 0, 5⟩ : Transaction Nat).nextFlush ≤ 5
    ∧ (⟨1, 0, 0, 5⟩ : Transaction Nat) ∈ ([⟨1, 0, 0, 5⟩] : List (Transaction Nat))
    ∧ (⟨1, 0, 0, 5⟩ : Transaction Nat) ∉ selectDue [⟨1, 0, 0, 5⟩] 5 := by
  decide

/-- C4 (amended): `selectDue(now)` returns exactly those live transactions
whose `nextEligibleTime` is strictly earlier than `now`; a transaction with
`nextEligibleTime >= now` (equality included) is never returned, and every
live transaction with `nextEligibleTime < now` is returned. -/
theorem C4_select_due_strict {α : Type} (trs : List (Transaction α)) (now : Nat)
    (tr : Transaction α) :
    tr ∈ selectDue trs now ↔ tr ∈ trs ∧ tr.nextFlush < now := by
  simp [selectDue, time_to_flush]

/-- C8: while a previously spawned check process is still tracked
(`_check_pid > 0`), `run_checks` returns `False` (refused) and leaves the
process handle unchanged, whatever the spawn attempt would have done. -/
theorem C8_single_child (s : AppState) (popen : SpawnOutcome)
    (h : s.checkPid > 0) :
    run_checks s popen = (false, s) := by
  simp [run_checks, h]

/-- C8 witness: the theorem applied at the concrete state with a tracked
pid 7 and a spawn attempt that would have yielded pid 9. -/
theorem C8_single_child_witness :
    (⟨7⟩ : AppState).checkPid > 0
    ∧ run_checks ⟨7⟩ (SpawnOutcome.started 9) = (false, ⟨7⟩) :=
  ⟨by decide, C8_single_child ⟨7⟩ (SpawnOutcome.started 9) (by decide)⟩

/-- C7: an intake request whose integrity token does not match the digest
of the raw message, or whose message fails to decode, is answered with a
server-error status (500) and nothing is enqueued: the whole queue state
(transactions, counter, flush cursor) is unchanged, identically for both
failure modes. -/
theorem C7_intake_rejects {μ α β : Type} (digest : μ → String)
    (jsonDecode : μ → Option α) (fb : α → Option β) (s : TrState α)
    (message : μ) (msgHash : String) (now : Nat)
    (h : digest message ≠ msgHash ∨ jsonDecode message = none) :
    post digest jsonDecode fb s message msgHash now
      = (s, PostResult.httpError 500) := by
  by_cases hd : digest message = msgHash
  · rcases h with h | h
    · exact absurd hd h
    · simp [post, parse_message, hd, h]
  · simp [post, parse_message, hd]

/-- C7 witness: the theorem applied with a concrete digest function at a
mismatching hash, on the empty queue state. -/
theorem C7_intake_rejects_witness :
    ((fun _ : Nat => "a") 0 ≠ "b" ∨ (fun _ : Nat => some 0) 0 = none)
    ∧ post (fun _ : Nat => "a") (fun _ => some 0) (fun x : Nat => some x)
        ⟨[], 0, none⟩ 0 "b" 3 = (⟨[], 0, none⟩, PostResult.httpError 500) :=
  ⟨Or.inl (by decide),
   C7_intake_rejects (fun _ : Nat => "a") (fun _ => some 0)
     (fun x : Nat => some x) ⟨[], 0, none⟩ 0 "b" 3 (Or.inl (by decide))⟩

/-- C1: a `flush` call made while the flush cursor is non-absent is a
complete no-op (queue, cursor and all transaction states unchanged, no
network effect), so under any interleaving of `flush` calls only the one
chain that installed the cursor is ever active; and `_flush_next` resets
the cursor to absent exactly when the working list is exhausted. -/
theorem C1_single_flight {α β : Type} (fb : α → Option β) (s : TrState α)
    (now : Nat) (h : s.trsToFlush ≠ none) :
    flush fb s now = (s, FlushEffect.noop)
    ∧ ∀ l : List (Transaction α), ((flush_next fb l).1 = none ↔ l = []) := by
  constructor
  · match hc : s.trsToFlush with
    | some l => simp [flush, hc]
    | none => exact absurd hc h
  · intro l
    match l with
    | [] => simp [flush_next]
    | t :: ts =>
      cases hg : (t :: ts).getLast? with
      | none => simp at hg
      | some tr =>
        simp only [flush_next, hg]
        cases hb : get_data fb tr <;> simp

/-- C1 witness: the theorem applied at a state whose cursor holds the
singleton working list `[⟨1, 0, 0, 0⟩]`. -/
theorem C1_single_flight_witness :
    (⟨[], 1, some [⟨1, 0, 0, 0⟩]⟩ : TrState Nat).trsToFlush ≠ none
    ∧ (flush (fun x : Nat => some x) ⟨[], 1, some [⟨1, 0, 0, 0⟩]⟩ 9
        = (⟨[], 1, some [⟨1, 0, 0, 0⟩]⟩, FlushEffect.noop)
      ∧ ∀ l : List (Transaction Nat),
          ((flush_next (fun x : Nat => some x) l).1 = none ↔ l = [])) :=
  ⟨by decide,
   C1_single_flight (fun x : Nat => some x) ⟨[], 1, some [⟨1, 0, 0, 0⟩]⟩ 9
     (by decide)⟩

/-- C2 (counterexample): the claim says a failed attempt sets
`nextEligibleTime` to exactly `now + delay(failureCount)`; at
`now = 500000µs` (half a second) with a first failure the code truncates
`now + 20s` down to `20000000µs ≠ 20500000µs`. -/
theorem C2_counterexample :
    (on_response (fun _ : Nat => (none : Option Nat))
        ⟨[⟨1, 0, 0, 0⟩], 1, some []⟩ ⟨1, 0, 0, 0⟩ true 500000).1.transactions
      = [⟨1, 0, 1, 20000000⟩]
    ∧ (20000000 : Nat) ≠ 500000 + backoffDelay (0 + 1) * usPerSec := by
  constructor
  · decide
  · decide

/-- C9: evaluation of the code at a transaction whose payload the body
formatter fails to serialize (the claim's failing input).  The `except`
block of `get_data` references the undefined name `logger`, so the failure
raises out of `_flush_next` after the pop: no request is sent, the
transaction's failure count is NOT incremented (it is unchanged in the
live collection), and the cursor is left non-absent with no callback
pending — so every subsequent `flush`, with any formatter and at any time,
is a no-op: the chain aborts instead of continuing, and the failure is
never surfaced as a delivery failure. -/
theorem C9_formatter_crash :
    flush (fun _ : Nat => (none : Option Nat)) ⟨[⟨1, 0, 0, 0⟩], 1, none⟩ 5
      = (⟨[⟨1, 0, 0, 0⟩], 1, some []⟩, FlushEffect.crashed ⟨1, 0, 0, 0⟩)
    ∧ ∀ (now2 : Nat) (fb2 : Nat → Option Nat),
        flush fb2 (⟨[⟨1, 0, 0, 0⟩], 1, some []⟩ : TrState Nat) now2
          = (⟨[⟨1, 0, 0, 0⟩], 1, some []⟩, FlushEffect.noop) := by
  constructor
  · decide
  · intro now2 fb2
    simp [flush]

/-- If the ids in the live collection are pairwise distinct, removing the
first (hence only) element with id `i` leaves no element with id `i`. -/
theorem removeFirstId_id_not_mem {α : Type} (i : Nat) (l : List (Transaction α))
    (h : (l.map Transaction.id).Nodup) :
    i ∉ (removeFirstId i l).map Transaction.id := by
  induction l with
  | nil => simp [removeFirstId]
  | cons t ts ih =>
    simp only [List.map_cons, List.nodup_cons] at h
    by_cases ht : t.id = i
    · subst ht
      simpa [removeFirstId] using h.1
    · simp only [removeFirstId, ht, if_false, List.map_cons, List.mem_cons]
      push_neg
      exact ⟨fun he => ht he.symm, ih h.2⟩

/-- `on_response` updates the live collection the same way in both cursor
branches, and never touches the counter. -/
theorem on_response_state {α β : Type} (fb : α → Option β) (s : TrState α)
    (tr : Transaction α) (isError : Bool) (now : Nat) :
    (on_response fb s tr isError now).1.transactions
      = (if isError then
           s.transactions.map (fun t => if t.id = tr.id then errorTr now t else t)
         else removeFirstId tr.id s.transactions)
    ∧ (on_response fb s tr isError now).1.counter = s.counter := by
  cases hc : s.trsToFlush <;> simp [on_response, hc]

/-- C2 (amended): for a transaction `tr` in the live collection (with the
ids unique and bounded by the counter, as the code guarantees): if the
delivery attempt succeeds, `tr` is removed from the live collection and —
since any later transaction gets a strictly larger id — is never present
afterward; if the attempt fails, `tr` remains in the live collection with
`failureCount` incremented by exactly 1 and `nextEligibleTime` set to
`now + BackoffPolicy.delay(failureCount)` truncated to the whole second
(using the incremented count). -/
theorem C2_delivery_outcome {α β : Type} (fb : α → Option β) (s : TrState α)
    (tr : Transaction α) (now : Nat)
    (hmem : tr ∈ s.transactions)
    (hnd : (s.transactions.map Transaction.id).Nodup)
    (hid : tr.id ≤ s.counter) :
    tr.id ∉ ((on_response fb s tr false now).1.transactions.map Transaction.id)
    ∧ (∀ (d : α) (now2 : Nat),
        tr.id ∉ ((enqueue (on_response fb s tr false now).1 d now2).transactions.map
          Transaction.id))
    ∧ (∃ tr2, tr2 ∈ (on_response fb s tr true now).1.transactions
        ∧ tr2.id = tr.id ∧ tr2.errorCount = tr.errorCount + 1
        ∧ tr2.nextFlush = computeNextFlush (tr.errorCount + 1) now) := by
  obtain ⟨htrs, hcnt⟩ := on_response_state fb s tr false now
  simp only [if_neg Bool.false_ne_true] at htrs
  have hrem : tr.id ∉ ((on_response fb s tr false now).1.transactions.map
      Transaction.id) := by
    rw [htrs]
    exact removeFirstId_id_not_mem tr.id s.transactions hnd
  refine ⟨hrem, ?_, ?_⟩
  · intro d now2
    simp only [enqueue, List.map_append, List.mem_append, List.map_cons,
      List.map_nil, List.mem_cons, List.not_mem_nil, or_false]
    rw [hcnt]
    push_neg
    exact ⟨hrem, by omega⟩
  · refine ⟨errorTr now tr, ?_, rfl, rfl, rfl⟩
    obtain ⟨htrs2, _⟩ := on_response_state fb s tr true now
    rw [htrs2]
    simp only [if_pos rfl]
    have := List.mem_map_of_mem
      (fun t => if t.id = tr.id then errorTr now t else t) hmem
    simpa using this

/-- C2 witness: the theorem applied at a one-element queue holding
transaction id 1 with two prior failures, response time 7µs. -/
theorem C2_delivery_outcome_witness :
    ((⟨1, 50, 2, 0⟩ : Transaction Nat) ∈
        ([⟨1, 50, 2, 0⟩] : List (Transaction Nat)))
    ∧ ((1 : Nat) ∉ ((on_response (fun x : Nat => some x)
          ⟨[⟨1, 50, 2, 0⟩], 1, some []⟩ ⟨1, 50, 2, 0⟩ false 7).1.transactions.map
            Transaction.id)
      ∧ (∀ (d : Nat) (now2 : Nat),
          (1 : Nat) ∉ ((enqueue (on_response (fun x : Nat => some x)
            ⟨[⟨1, 50, 2, 0⟩], 1, some []⟩ ⟨1, 50, 2, 0⟩ false 7).1 d
              now2).transactions.map Transaction.id))
      ∧ (∃ tr2, tr2 ∈ (on_response (fun x : Nat => some x)
            ⟨[⟨1, 50, 2, 0⟩], 1, some []⟩ ⟨1, 50, 2, 0⟩ true 7).1.transactions
          ∧ tr2.id = 1 ∧ tr2.errorCount = 2 + 1
          ∧ tr2.nextFlush = computeNextFlush (2 + 1) 7)) :=
  ⟨by decide,
   C2_delivery_outcome (fun x : Nat => some x) ⟨[⟨1, 50, 2, 0⟩], 1, some []⟩
     ⟨1, 50, 2, 0⟩ 7 (by decide) (by decide) (by decide)⟩

/-- C6 (counterexample): the claim says the selected list is in reverse
insertion order (most recently created first); with two due transactions
in insertion order `[id 1, id 2]` the code returns `[id 1, id 2]`, whose
first element is the OLDEST, not `id 2`. -/
theorem C6_counterexample :
    selectDue ([⟨1, 0, 0, 0⟩, ⟨2, 0, 0, 0⟩] : List (Transaction Nat)) 5
      = [⟨1, 0, 0, 0⟩, ⟨2, 0, 0, 0⟩]
    ∧ (selectDue ([⟨1, 0, 0, 0⟩, ⟨2, 0, 0, 0⟩] : List (Transaction Nat)) 5).head?
      ≠ some ⟨2, 0, 0, 0⟩ := by
  decide

/-- C6 (amended): the list returned by `selectDue(now)` is in INSERTION
order (it is an order-preserving sublist of the live collection, oldest
first, most recently created last); newest-first delivery arises because
`_flush_next` pops the working list from its end: whenever the selected
list is `l ++ [tr]`, the pop removes and hands over `tr`, leaving `l`. -/
theorem C6_insertion_order {α β : Type} (fb : α → Option β)
    (trs : List (Transaction α)) (now : Nat) :
    (selectDue trs now).Sublist trs
    ∧ ∀ (l : List (Transaction α)) (tr : Transaction α),
        selectDue trs now = l ++ [tr] →
        (flush_next fb (l ++ [tr])).1 = some l
        ∧ poppedTr (flush_next fb (l ++ [tr])).2 = some tr := by
  refine ⟨List.filter_sublist trs, ?_⟩
  intro l tr _
  cases hb : get_data fb tr <;>
    simp [flush_next, List.getLast?_concat, List.dropLast_concat, hb, poppedTr]

/-- C6 witness: the theorem applied at the two-element queue of the
counterexample; the pop yields the newest due transaction, id 2. -/
theorem C6_insertion_order_witness :
    (selectDue ([⟨1, 0, 0, 0⟩, ⟨2, 0, 0, 0⟩] : List (Transaction Nat)) 5).Sublist
        [⟨1, 0, 0, 0⟩, ⟨2, 0, 0, 0⟩]
    ∧ ((flush_next (fun x : Nat => some x)
          ([⟨1, 0, 0, 0⟩] ++ [⟨2, 0, 0, 0⟩])).1 = some [⟨1, 0, 0, 0⟩]
      ∧ poppedTr (flush_next (fun x : Nat => some x)
          ([⟨1, 0, 0, 0⟩] ++ [⟨2, 0, 0, 0⟩])).2 = some ⟨2, 0, 0, 0⟩) :=
  ⟨(C6_insertion_order (fun x : Nat => some x)
      [⟨1, 0, 0, 0⟩, ⟨2, 0, 0, 0⟩] 5).1,
   (C6_insertion_order (fun x : Nat => some x)
      [⟨1, 0, 0, 0⟩, ⟨2, 0, 0, 0⟩] 5).2 [⟨1, 0, 0, 0⟩] ⟨2, 0, 0, 0⟩ (by decide)⟩

/-- C5: flush delivery order is newest-first: for any three transactions
enqueued in order A, B, C, all due at flush time, and a formatter that
succeeds on every payload, a single flush chain (successful responses
arriving in order) sends C first, then B, then A, after which the cursor
drains back to absent. -/
theorem C5_newest_first {α β : Type} (fb : α → Option β) (g : α → β)
    (hfb : ∀ d, fb d = some (g d)) (A B C : Transaction α) (n now : Nat)
    (hA : A.nextFlush < now) (hB : B.nextFlush < now) (hC : C.nextFlush < now) :
    ∃ s1 s2 s3 s4 b1 b2 b3,
      flush fb ⟨[A, B, C], n, none⟩ now = (s1, FlushEffect.sent C b1)
      ∧ on_response fb s1 C false now = (s2, FlushEffect.sent B b2)
      ∧ on_response fb s2 B false now = (s3, FlushEffect.sent A b3)
      ∧ on_response fb s3 A false now = (s4, FlushEffect.drained)
      ∧ s4.trsToFlush = none := by
  have hsel : selectDue [A, B, C] now = [A, B, C] := by
    simp [selectDue, time_to_flush, hA, hB, hC]
  refine ⟨⟨[A, B, C], n, some [A, B]⟩,
    ⟨removeFirstId C.id [A, B, C], n, some [A]⟩,
    ⟨removeFirstId B.id (removeFirstId C.id [A, B, C]), n, some []⟩,
    ⟨removeFirstId A.id (removeFirstId B.id (removeFirstId C.id [A, B, C])),
      n, none⟩,
    g C.data, g B.data, g A.data, ?_, ?_, ?_, ?_, rfl⟩
  · simp [flush, hsel, flush_next, get_data, hfb]
  · simp [on_response, flush_next, get_data, hfb]
  · simp [on_response, flush_next, get_data, hfb]
  · simp [on_response, flush_next]

/-- C5 witness: the theorem applied at concrete transactions with ids
1, 2, 3 (enqueued in that order), all due at time 5, with the identity
formatter. -/
theorem C5_newest_first_witness :
    ∃ s1 s2 s3 s4 b1 b2 b3,
      flush (fun x : Nat => some x)
          ⟨[⟨1, 10, 0, 0⟩, ⟨2, 20, 0, 0⟩, ⟨3, 30, 0, 0⟩], 3, none⟩ 5
        = (s1, FlushEffect.sent ⟨3, 30, 0, 0⟩ b1)
      ∧ on_response (fun x : Nat => some x) s1 ⟨3, 30, 0, 0⟩ false 5
        = (s2, FlushEffect.sent ⟨2, 20, 0, 0⟩ b2)
      ∧ on_response (fun x : Nat => some x) s2 ⟨2, 20, 0, 0⟩ false 5
        = (s3, FlushEffect.sent ⟨1, 10, 0, 0⟩ b3)
      ∧ on_response (fun x : Nat => some x) s3 ⟨1, 10, 0, 0⟩ false 5
        = (s4, FlushEffect.drained)
      ∧ s4.trsToFlush = none :=
  C5_newest_first (fun x : Nat => some x) (fun x => x) (fun _ => rfl)
    ⟨1, 10, 0, 0⟩ ⟨2, 20, 0, 0⟩ ⟨3, 30, 0, 0⟩ 3 5
    (by decide) (by decide) (by decide)

end DDAgent
